import Mathlib

/-!
# SMPL-Playground: a shallow embedding of the light/model controllers

This file embeds, in Lean 4, the parts of the SMPL-Playground repository that
the verified claims are about:

* `src/utils.py` — the spherical-to-Cartesian direction conversions;
* `src/light.py` — `LightMarker`, `Light`, `Sun`, `PointLight`, `SpotLight`
  (the point/spot hierarchy is flattened into one structure `PLight` with a
  `kind` tag; each Python method becomes a Lean function returning the updated
  object together with the updated scene);
* `src/controllers/lights.py` — `LightsController` (light mapping, current
  selection, key handling, movement);
* `src/main.py` — the Lights/SMPL panel toggling state;
* `src/components/scene/model.py` — the SMPL `Model` (pose/betas tensors,
  slider construction, parameter-change handlers, mesh update).

Numeric values carried by the program (positions, colors, intensities, slider
values) are modelled as rationals `ℚ`: the Python program only copies them,
adds or subtracts constant steps, and compares them, so exact arithmetic is a
faithful model.  Trigonometric float functions (`math.radians`, `math.sin`,
`math.cos`) are modelled as an abstract `TrigKit` of functions `ℚ → ℚ`: every
theorem below quantifies over the kit, hence holds in particular for the
floating-point implementations the program uses.

The external `open3d` scene is modelled as an explicit record of named
geometries, named lights and the sun-light state, with the operations the
program invokes on it (`has_geometry`, `remove_geometry`, `add_geometry`,
`remove_light`, `add_point_light`, `add_spot_light`, `set_sun_light`,
`enable_sun_light`).  Python exceptions (`KeyError` from `del`, the error
raised by `Sun.destroy`) are modelled with `Except String`.

Mutable aliasing: in Python `self._current_light` and the entry of
`self._lights` with the same name are the same object.  The embedding stores a
copy in both places and writes every mutation of the current light through to
the mapping entry of the same name (`updateKey`), which coincides with the
reference semantics as long as at most the one alias exists.
-/

/-- The triple of functions `math.radians`, `math.sin`, `math.cos` used by
`src/utils.py`.  The program applies them to Python floats; here they are
abstract functions on `ℚ`, so every result quantified over a `TrigKit` holds
for the actual floating-point implementations. -/
structure TrigKit where
  radians : ℚ → ℚ
  sin : ℚ → ℚ
  cos : ℚ → ℚ

/-- A 3-component vector, as the tuples / numpy arrays the program passes
around. -/
abbrev V3 : Type := ℚ × ℚ × ℚ

/-- `utils.sphere_dir(azimuth_deg, elevation_deg)` from `src/utils.py`:
converts degrees to radians and returns
`(cos(el)*sin(az), sin(el), cos(el)*cos(az))`. -/
def sphere_dir (k : TrigKit) (azimuth_deg elevation_deg : ℚ) : V3 :=
  let az := k.radians azimuth_deg
  let el := k.radians elevation_deg
  let dx := k.cos el * k.sin az
  let dy := k.sin el
  let dz := k.cos el * k.cos az
  (dx, dy, dz)

/-- `utils.yaw_pitch_to_direction(yaw_degree, pitch_degree)` from
`src/utils.py`: converts degrees to radians and returns
`(cos(pitch)*sin(yaw), sin(pitch), cos(pitch)*cos(yaw))`. -/
def yaw_pitch_to_direction (k : TrigKit) (yaw_degree pitch_degree : ℚ) : V3 :=
  let yaw := k.radians yaw_degree
  let pitch := k.radians pitch_degree
  let dy := k.sin pitch
  let cp := k.cos pitch
  let dx := cp * k.sin yaw
  let dz := cp * k.cos yaw
  (dx, dy, dz)

/-! ## Ordered string-keyed dictionaries

Python `dict`s preserve insertion order: assignment to a fresh key appends,
assignment to an existing key updates in place, `del` removes the entry.  The
embedding uses association lists with these exact operations. -/

/-- Python dict assignment `d[n] = v`: update in place when the key exists,
append otherwise. -/
def dictInsert {α : Type} (n : String) (v : α) (l : List (String × α)) :
    List (String × α) :=
  if (l.lookup n).isSome then
    l.map (fun p => if p.1 = n then (n, v) else p)
  else
    l ++ [(n, v)]

/-- Removal of the entries with key `n` (Python `del d[n]`; the caller checks
presence, `del` on a missing key raises `KeyError`). -/
def dictRemove {α : Type} (n : String) (l : List (String × α)) :
    List (String × α) :=
  l.filter (fun p => p.1 != n)

/-! ## The open3d rendering scene

`open3d.visualization.rendering.Scene` as the program uses it: a collection of
named geometries (the marker spheres), named point/spot lights, and the
sun-light state.  Only the operations the program calls are modelled. -/

/-- A sphere geometry as built by `LightMarker._update`: a sphere of the given
radius translated to `center` and painted `color` (the unlit material's
`base_color` is always the same `color`, so it is not duplicated here). -/
structure SphereGeom where
  center : V3
  color : V3
  radius : ℚ
  deriving DecidableEq

/-- A scene light added by `add_point_light` / `add_spot_light`. -/
inductive SceneLight where
  | point (color : V3) (position : V3) (intensity : ℚ) (falloff : ℚ)
      (cast_shadow : Bool)
  | spot (color : V3) (position : V3) (direction : V3) (intensity : ℚ)
      (falloff : ℚ) (inner_cone_angle : ℚ) (outer_cone_angle : ℚ)
      (cast_shadow : Bool)
  deriving DecidableEq

/-- The parameters last passed to `Scene.set_sun_light`. -/
structure SunRecord where
  direction : V3
  color : V3
  intensity : ℚ
  deriving DecidableEq

/-- The rendering scene state. -/
structure LScene where
  geoms : List (String × SphereGeom)
  lights : List (String × SceneLight)
  sun : Option SunRecord
  sunEnabled : Bool
  indirectEnabled : Bool
  deriving DecidableEq

namespace LScene

/-- `Scene.has_geometry(name)`. -/
def has_geometry (sc : LScene) (n : String) : Bool :=
  (sc.geoms.lookup n).isSome

/-- `Scene.remove_geometry(name)`. -/
def remove_geometry (sc : LScene) (n : String) : LScene :=
  { sc with geoms := dictRemove n sc.geoms }

/-- `Scene.add_geometry(name, geometry, material)`: open3d ignores an add
whose name is already present; the program always removes first where the
name could exist. -/
def add_geometry (sc : LScene) (n : String) (g : SphereGeom) : LScene :=
  if sc.has_geometry n then sc else { sc with geoms := sc.geoms ++ [(n, g)] }

/-- `Scene.remove_light(name)`. -/
def remove_light (sc : LScene) (n : String) : LScene :=
  { sc with lights := dictRemove n sc.lights }

/-- Whether a scene light named `n` exists. -/
def has_light (sc : LScene) (n : String) : Bool :=
  (sc.lights.lookup n).isSome

/-- `Scene.add_point_light(name, color, position, intensity, falloff,
cast_shadow)`; like `add_geometry`, an existing name is left alone (the
program always calls `remove_light` first). -/
def add_point_light (sc : LScene) (n : String) (color position : V3)
    (intensity falloff : ℚ) (cast_shadow : Bool) : LScene :=
  if sc.has_light n then sc
  else { sc with
    lights := sc.lights ++
      [(n, SceneLight.point color position intensity falloff cast_shadow)] }

/-- `Scene.add_spot_light(name, color, position, direction, intensity,
falloff, inner_cone_angle, outer_cone_angle, cast_shadow)`. -/
def add_spot_light (sc : LScene) (n : String) (color position direction : V3)
    (intensity falloff inner_cone_angle outer_cone_angle : ℚ)
    (cast_shadow : Bool) : LScene :=
  if sc.has_light n then sc
  else { sc with
    lights := sc.lights ++
      [(n, SceneLight.spot color position direction intensity falloff
            inner_cone_angle outer_cone_angle cast_shadow)] }

/-- `Scene.set_sun_light(direction, color, intensity)`. -/
def set_sun_light (sc : LScene) (direction color : V3) (intensity : ℚ) :
    LScene :=
  { sc with sun := some ⟨direction, color, intensity⟩ }

/-- `Scene.enable_sun_light(enabled)`. -/
def enable_sun_light (sc : LScene) (b : Bool) : LScene :=
  { sc with sunEnabled := b }

/-- `Scene.enable_indirect_light(enabled)`. -/
def enable_indirect_light (sc : LScene) (b : Bool) : LScene :=
  { sc with indirectEnabled := b }

end LScene

/-! ## `LightMarker` (`src/light.py`) -/

/-- The state of a `LightMarker`: the scene is passed explicitly to its
methods, the sphere and material are rebuilt from the fields by `_update`. -/
structure LightMarker where
  name : String
  position : V3
  color : V3
  radius : ℚ
  deriving DecidableEq

namespace LightMarker

/-- `LightMarker.DEFAULT_RADIUS`, the construction default `radius=0.01`
(named constant referenced by `LightsController._select_light`). -/
def DEFAULT_RADIUS : ℚ := 0.01

/-- `LightMarker._update`: rebuild the sphere at `position` painted `color`
and replace the scene geometry under `name`. -/
def update (m : LightMarker) (sc : LScene) : LScene :=
  let sc1 := if sc.has_geometry m.name then sc.remove_geometry m.name else sc
  sc1.add_geometry m.name ⟨m.position, m.color, m.radius⟩

/-- `LightMarker.set_position`. -/
def set_position (m : LightMarker) (p : V3) (sc : LScene) :
    LightMarker × LScene :=
  let m' := { m with position := p }
  (m', m'.update sc)

/-- `LightMarker.set_color` (a `gui.Color` argument is first converted to its
rgb triple, so the argument is modelled as the triple). -/
def set_color (m : LightMarker) (c : V3) (sc : LScene) :
    LightMarker × LScene :=
  let m' := { m with color := c }
  (m', m'.update sc)

/-- `LightMarker.set_radius`. -/
def set_radius (m : LightMarker) (r : ℚ) (sc : LScene) :
    LightMarker × LScene :=
  let m' := { m with radius := r }
  (m', m'.update sc)

/-- `LightMarker.destroy`: remove the marker geometry from the scene (the
material reference is also dropped, which has no scene effect). -/
def destroy (m : LightMarker) (sc : LScene) : LScene :=
  if sc.has_geometry m.name then sc.remove_geometry m.name else sc

/-- `LightMarker.__init__`: store the fields and run `_update` once. -/
def mk' (n : String) (position color : V3) (radius : ℚ) (sc : LScene) :
    LightMarker × LScene :=
  let m : LightMarker := ⟨n, position, color, radius⟩
  (m, m.update sc)

end LightMarker

/-! ## `Light`, `PointLight`, `SpotLight` (`src/light.py`)

The class hierarchy `Light → PointLight → SpotLight` is flattened into one
structure, tagged by `kind`; the spot-only fields are unused (and default) on
point lights.  Inherited methods (`set_color`, `set_intensity`) are written
once on the flattened structure.  `src/controllers/lights.py` imports the
light classes from `components/scene/light.py`, which is not part of the
sources; they are embedded here from the sibling implementation
`src/light.py`, which the claims cite. -/

/-- Point or spot. -/
inductive LKind where
  | point
  | spot
  deriving DecidableEq

/-- The state of a `PointLight` / `SpotLight` object. -/
structure PLight where
  kind : LKind
  name : String
  color : V3
  intensity : ℚ
  position : V3
  falloff : ℚ
  cast_shadow : Bool
  yaw : ℚ
  pitch : ℚ
  inner_cone_angle : ℚ
  outer_cone_angle : ℚ
  /-- `GuiComponentInterface._is_gui_built` from
  `src/components/gui/interfaces.py`: set by `build_gui`, cleared by
  `destroy_gui`. -/
  gui_built : Bool
  deriving DecidableEq

/-- The marker owned by the light, named `"m_" ++ name` and created at the
origin with the light's color and the default radius. -/
structure OwnedLight where
  light : PLight
  marker : LightMarker
  deriving DecidableEq

namespace OwnedLight

/-- `PointLight._update` / `SpotLight._update`: remove the scene light named
`name` and re-add it from the current fields (the spot variant first computes
the direction with `yaw_pitch_to_direction`). -/
def updateScene (k : TrigKit) (l : OwnedLight) (sc : LScene) : LScene :=
  match l.light.kind with
  | .point =>
      (sc.remove_light l.light.name).add_point_light l.light.name
        l.light.color l.light.position l.light.intensity l.light.falloff
        l.light.cast_shadow
  | .spot =>
      let direction := yaw_pitch_to_direction k l.light.yaw l.light.pitch
      (sc.remove_light l.light.name).add_spot_light l.light.name
        l.light.color l.light.position direction l.light.intensity
        l.light.falloff l.light.inner_cone_angle l.light.outer_cone_angle
        l.light.cast_shadow

/-- `Light.set_color`: store the color, mirror it onto the marker, update the
scene light. -/
def set_color (k : TrigKit) (l : OwnedLight) (c : V3) (sc : LScene) :
    OwnedLight × LScene :=
  let (m', sc1) := l.marker.set_color c sc
  let l' : OwnedLight := { light := { l.light with color := c }, marker := m' }
  (l', l'.updateScene k sc1)

/-- `Light.set_intensity`. -/
def set_intensity (k : TrigKit) (l : OwnedLight) (i : ℚ) (sc : LScene) :
    OwnedLight × LScene :=
  let l' : OwnedLight := { l with light := { l.light with intensity := i } }
  (l', l'.updateScene k sc)

/-- `PointLight.set_position`: store the position, mirror it onto the marker,
update the scene light. -/
def set_position (k : TrigKit) (l : OwnedLight) (p : V3) (sc : LScene) :
    OwnedLight × LScene :=
  let (m', sc1) := l.marker.set_position p sc
  let l' : OwnedLight :=
    { light := { l.light with position := p }, marker := m' }
  (l', l'.updateScene k sc1)

/-- `GuiComponentInterface.build_gui` effect on the object (widget trees are
not modelled beyond the built flag). -/
def build_gui (l : OwnedLight) : OwnedLight :=
  { l with light := { l.light with gui_built := true } }

/-- `PointLight.destroy_gui` (hides the controls and clears the built
flag). -/
def destroy_gui (l : OwnedLight) : OwnedLight :=
  { l with light := { l.light with gui_built := false } }

/-- `PointLight.destroy` as written in `src/light.py`: it calls the abstract
`Light.destroy` (whose body is `pass`) and then `destroy_gui`.  Neither the
scene light nor the marker geometry is removed from the scene, and
`LightMarker.destroy` is never invoked. -/
def destroy (l : OwnedLight) (sc : LScene) : OwnedLight × LScene :=
  (l.destroy_gui, sc)

/-- `PointLight.__init__` / `SpotLight.__init__` with an explicit name (the
source draws a fresh `pl_`/`sl_`-prefixed uuid name): store the fields,
create the marker (at the origin, with the light's color and radius `0.01`),
then run `_update`. -/
def mk' (k : TrigKit) (kind : LKind) (n : String) (position : V3)
    (sc : LScene) : OwnedLight × LScene :=
  let light : PLight :=
    { kind := kind, name := n, color := (1, 1, 1), intensity := 100000,
      position := position, falloff := 1000, cast_shadow := true,
      yaw := 0, pitch := 0, inner_cone_angle := 1, outer_cone_angle := 1,
      gui_built := false }
  let (m, sc1) :=
    LightMarker.mk' ("m_" ++ n) (0, 0, 0) light.color
      LightMarker.DEFAULT_RADIUS sc
  let l : OwnedLight := { light := light, marker := m }
  (l, l.updateScene k sc1)

end OwnedLight

/-! ## `Sun` (`src/light.py`) -/

/-- The state of the `Sun` light object. -/
structure Sun where
  azimuth_deg : ℚ
  elevation_deg : ℚ
  color : V3
  intensity : ℚ
  enabled : Bool
  indirect_light_enable : Bool
  marker : LightMarker
  gui_built : Bool
  deriving DecidableEq

namespace Sun

/-- `Sun._update`: recompute the direction with `sphere_dir` and push
direction, color, intensity and the enabled flag into the scene. -/
def updateScene (k : TrigKit) (s : Sun) (sc : LScene) : LScene :=
  let direction := sphere_dir k s.azimuth_deg s.elevation_deg
  (sc.set_sun_light direction s.color s.intensity).enable_sun_light s.enabled

/-- `Sun.set_azimuth`. -/
def set_azimuth (k : TrigKit) (s : Sun) (a : ℚ) (sc : LScene) :
    Sun × LScene :=
  let s' := { s with azimuth_deg := a }
  (s', s'.updateScene k sc)

/-- `Sun.set_elevation`. -/
def set_elevation (k : TrigKit) (s : Sun) (e : ℚ) (sc : LScene) :
    Sun × LScene :=
  let s' := { s with elevation_deg := e }
  (s', s'.updateScene k sc)

/-- `Sun.set_enabled`. -/
def set_enabled (k : TrigKit) (s : Sun) (b : Bool) (sc : LScene) :
    Sun × LScene :=
  let s' := { s with enabled := b }
  (s', s'.updateScene k sc)

/-- `Light.set_color` as inherited by `Sun`: store the color, mirror it onto
the marker, run `Sun._update`. -/
def set_color (k : TrigKit) (s : Sun) (c : V3) (sc : LScene) :
    Sun × LScene :=
  let (m', sc1) := s.marker.set_color c sc
  let s' := { s with color := c, marker := m' }
  (s', s'.updateScene k sc1)

/-- `Sun.destroy`: unconditionally raises (`raise NotImplemented(...)`); no
field and no scene operation is performed, so no updated state is produced. -/
def destroy (_s : Sun) (_sc : LScene) : Except String (Sun × LScene) :=
  .error "Sun light cannot be destroyed. Try disabling it instead."

/-- `Sun.__init__` with the construction defaults: azimuth 240, elevation 10,
white color, intensity 100000, enabled; creates the marker `m_Sun` and runs
`_update`. -/
def mk' (k : TrigKit) (sc : LScene) : Sun × LScene :=
  let (m, sc1) :=
    LightMarker.mk' "m_Sun" (0, 0, 0) (1, 1, 1) LightMarker.DEFAULT_RADIUS sc
  let s : Sun :=
    { azimuth_deg := 240, elevation_deg := 10, color := (1, 1, 1),
      intensity := 100000, enabled := true, indirect_light_enable := true,
      marker := m, gui_built := false }
  (s, s.updateScene k sc1)

end Sun

/-! ## `LightsController` (`src/controllers/lights.py`)

The controller owns the dict `_lights` of named lights, the selection
`_current_light` (an object reference: `none`, or an alias of a light that
was — and normally still is — in the dict), the sun, and the enabled/visible
flags of its widgets.  In-place mutation of the current light is modelled by
`updateKey`-ing the mapping entry of the same name. -/

/-- In-place mutation of the object stored under key `n` (a no-op when the
key is absent, as when the aliased object was already deleted from the
dict). -/
def updateKey {α : Type} (n : String) (v : α) (l : List (String × α)) :
    List (String × α) :=
  l.map (fun p => if p.1 = n then (p.1, v) else p)

/-- Modelled from the spec: the light classes imported by
`src/controllers/lights.py` live in `components/scene/light.py`, which is not
among the sources.  The spec's data model gives each point/spot light a
`position`; `_move_current_light` reads it via the `position` attribute,
which is the field written by `set_position` in `src/light.py`. -/
def PLight.positionAttr (l : PLight) : V3 :=
  l.position

/-- The `gui.KeyEvent` type values the handler compares against. -/
inductive KeyEventType where
  | down
  | up
  deriving DecidableEq

/-- A `gui.KeyEvent`: its type, and its `key` code — `none` models an event
object without a `key` attribute (`getattr(event, "key", None)`). -/
structure KeyEvent where
  type : KeyEventType
  key : Option ℕ
  deriving DecidableEq

/-- The `LightsController` state. -/
structure LightsController where
  lights : List (String × OwnedLight)
  current : Option OwnedLight
  sun : Sun
  comboboxEnabled : Bool
  removeButtonEnabled : Bool
  optionsPanelVisible : Bool
  optionsPanelOpen : Bool
  comboboxItems : List String
  comboboxSelectedIndex : Option ℕ
  deriving DecidableEq

namespace LightsController

/-- `LightsController.SELECTED_LIGHT_MARKER_RADIUS`. -/
def SELECTED_LIGHT_MARKER_RADIUS : ℚ := 0.03

/-- `LightsController.LIGHT_MOVE_STEP`. -/
def LIGHT_MOVE_STEP : ℚ := 0.01

/-- `LightsController._refresh_light_combobox(selected_light_name)`: clear
the items, re-add every light name in mapping order, and set the selected
index to the position of `selected_light_name` when it occurs. -/
def refresh_light_combobox (sel : Option String)
    (st : LightsController) : LightsController :=
  let keys := st.lights.map Prod.fst
  { st with
    comboboxItems := keys
    comboboxSelectedIndex :=
      match sel with
      | none => none
      | some s => keys.indexOf? s }

/-- `LightsController._select_light(name)`.  The final `self._refresh_layout()`
has no state effect (it only posts a relayout request). -/
def select_light (st : LightsController) (name : String) (sc : LScene) :
    LightsController × LScene :=
  if name = "" ∨ (st.lights.lookup name).isNone then
    (refresh_light_combobox none { st with current := none }, sc)
  else
    match st.current with
    | some cur =>
      if cur.light.name = name then (st, sc)
      else
        let cur1 := cur.destroy_gui
        let lights1 := updateKey cur.light.name cur1 st.lights
        let (lights2, sc1) :=
          if (st.lights.lookup cur.light.name).isSome then
            let (m', sc') :=
              cur1.marker.set_radius LightMarker.DEFAULT_RADIUS sc
            (updateKey cur.light.name { cur1 with marker := m' } lights1, sc')
          else (lights1, sc)
        match lights2.lookup name with
        | none =>
          -- unreachable: `name` was checked present and only the entry under
          -- `cur.light.name ≠ name` was rewritten
          ({ st with current := none }, sc1)
        | some newCur =>
          let (m', sc2) :=
            newCur.marker.set_radius SELECTED_LIGHT_MARKER_RADIUS sc1
          let newCur1 := { newCur with marker := m' }
          let lights3 := updateKey name newCur1 lights2
          let newCur2 :=
            if ¬ newCur1.light.gui_built then newCur1.build_gui else newCur1
          let lights4 := updateKey name newCur2 lights3
          ({ st with lights := lights4, current := some newCur2 }, sc2)
    | none =>
      match st.lights.lookup name with
      | none => ({ st with current := none }, sc)
      | some newCur =>
        let (m', sc2) :=
          newCur.marker.set_radius SELECTED_LIGHT_MARKER_RADIUS sc
        let newCur1 := { newCur with marker := m' }
        let lights3 := updateKey name newCur1 st.lights
        let newCur2 :=
          if ¬ newCur1.light.gui_built then newCur1.build_gui else newCur1
        let lights4 := updateKey name newCur2 lights3
        ({ st with lights := lights4, current := some newCur2 }, sc2)

/-- `LightsController._add_light(type_)`: build the light (with a fresh
uuid-based name, passed here explicitly, at `DEFAULT_LIGHT_POSITION` from the
absent `constants.py`, passed here explicitly), add its controls to the
options panel, store it in the dict, select it, refresh the combobox, and
enable the combobox, the remove button and the options panel. -/
def add_light (k : TrigKit) (type_ : LKind) (fresh : String)
    (defaultPos : V3) (st : LightsController) (sc : LScene) :
    LightsController × LScene :=
  let (light, sc1) := OwnedLight.mk' k type_ fresh defaultPos sc
  let light1 := light.build_gui
  let st1 := { st with lights := dictInsert fresh light1 st.lights }
  let (st2, sc2) := select_light st1 fresh sc1
  let st3 := refresh_light_combobox (some fresh) st2
  ({ st3 with
      comboboxEnabled := true
      removeButtonEnabled := true
      optionsPanelVisible := true
      optionsPanelOpen := true }, sc2)

/-- `LightsController._on_selected_light_change(text, idx)`. -/
def on_selected_light_change (text : String) (st : LightsController)
    (sc : LScene) : LightsController × LScene :=
  if (st.lights.lookup text).isSome then select_light st text sc else (st, sc)

/-- `LightsController._remove_current_light`: destroy the current light,
`del` it from the dict (a `KeyError` if its name is no longer a key), then
select the first remaining light, or — when none remains — disable the
combobox, the remove button and the options panel, leaving
`self._current_light` as it was. -/
def remove_current_light (st : LightsController) (sc : LScene) :
    Except String (LightsController × LScene) :=
  match st.current with
  | none => .ok (st, sc)
  | some cur =>
    let (cur1, sc1) := cur.destroy sc
    let lights1 := updateKey cur.light.name cur1 st.lights
    if (lights1.lookup cur1.light.name).isNone then
      .error ("KeyError: " ++ cur1.light.name)
    else
      let lights2 := dictRemove cur1.light.name lights1
      let st1 := { st with lights := lights2, current := some cur1 }
      match lights2.map Prod.fst with
      | n :: _ =>
        let (st2, sc2) := select_light st1 n sc1
        .ok (refresh_light_combobox (some n) st2, sc2)
      | [] =>
        let st2 :=
          { st1 with
              removeButtonEnabled := false
              comboboxEnabled := false
              optionsPanelVisible := false
              optionsPanelOpen := false }
        .ok (refresh_light_combobox none st2, sc1)

/-- `LightsController._move_current_light(key)`: shift one coordinate of the
current light's position by `LIGHT_MOVE_STEP` (up/down on y, left/right on x,
page-up/page-down on z) and pass the result to `set_position`. -/
def move_current_light (k : TrigKit) (key : ℕ) (st : LightsController)
    (sc : LScene) : LightsController × LScene :=
  match st.current with
  | none => (st, sc)
  | some cur =>
    let p := cur.light.positionAttr
    let p' :=
      if key = 265 then (p.1, p.2.1 + LIGHT_MOVE_STEP, p.2.2)
      else if key = 263 then (p.1 - LIGHT_MOVE_STEP, p.2.1, p.2.2)
      else if key = 266 then (p.1, p.2.1 - LIGHT_MOVE_STEP, p.2.2)
      else if key = 264 then (p.1 + LIGHT_MOVE_STEP, p.2.1, p.2.2)
      else if key = 271 then (p.1, p.2.1, p.2.2 + LIGHT_MOVE_STEP)
      else if key = 270 then (p.1, p.2.1, p.2.2 - LIGHT_MOVE_STEP)
      else p
    let (cur', sc') := OwnedLight.set_position k cur p' sc
    ({ st with
        current := some cur'
        lights := updateKey cur.light.name cur' st.lights }, sc')

/-- The key set `light_move_keys` of `on_key_event_handler`. -/
def light_move_keys : List ℕ := [263, 264, 265, 266, 270, 271]

/-- `LightsController.on_key_event_handler(event)`: returns whether the event
was consumed, next to the updated state.  Key codes: `a`/`A` add a point
light, `s`/`S` a spot light, `d`/`D` remove the current light, `z`/`Z` and
`x`/`X` are reserved (TODO in the source), the six move keys move the current
light. -/
def on_key_event_handler (k : TrigKit) (fresh : String) (defaultPos : V3)
    (ev : KeyEvent) (st : LightsController) (sc : LScene) :
    Except String (Bool × LightsController × LScene) :=
  if ev.type ≠ KeyEventType.down then .ok (false, st, sc)
  else
    match ev.key with
    | none => .ok (false, st, sc)
    | some key =>
      if key ∈ light_move_keys then
        let (st', sc') := move_current_light k key st sc
        .ok (true, st', sc')
      else if key = 97 ∨ key = 65 then
        let (st', sc') := add_light k .point fresh defaultPos st sc
        .ok (true, st', sc')
      else if key = 115 ∨ key = 83 then
        let (st', sc') := add_light k .spot fresh defaultPos st sc
        .ok (true, st', sc')
      else if key = 100 ∨ key = 68 then
        match remove_current_light st sc with
        | .ok (st', sc') => .ok (true, st', sc')
        | .error e => .error e
      else if key = 122 ∨ key = 90 then .ok (true, st, sc)
      else if key = 120 ∨ key = 88 then .ok (true, st, sc)
      else .ok (false, st, sc)

/-- `LightsController.__init__` state effects: empty dict, no current light,
combobox and remove button disabled, options panel hidden and closed, and the
sun (with its marker) created in the scene. -/
def mk' (k : TrigKit) (sc : LScene) : LightsController × LScene :=
  let (sun, sc1) := Sun.mk' k sc
  ({ lights := []
     current := none
     sun := sun
     comboboxEnabled := false
     removeButtonEnabled := false
     optionsPanelVisible := false
     optionsPanelOpen := false
     comboboxItems := []
     comboboxSelectedIndex := none }, sc1)

end LightsController

/-! ## Concrete states used to evaluate the controller

A trivial trig kit, an empty scene, and the run "create the controller, add
one point light named `pl_1`, remove the current light" used below to settle
the claims about removal. -/

/-- A concrete trig kit (the theorems hold for every kit; witnesses use this
one). -/
def idKit : TrigKit :=
  ⟨fun x => x, fun x => x, fun x => x⟩

/-- A scene with no geometries and no lights. -/
def emptyScene : LScene :=
  ⟨[], [], none, true, true⟩

/-- The controller (and scene) right after `LightsController.__init__`. -/
def demo0 : LightsController × LScene :=
  LightsController.mk' idKit emptyScene

/-- `demo0` after `_add_light("PointLight")` with fresh name `pl_1` and
default position `(1, 1, 1)`. -/
def demo1 : LightsController × LScene :=
  LightsController.add_light idKit .point "pl_1" (1, 1, 1) demo0.1 demo0.2

/-- `demo1` after `_remove_current_light()`. -/
def demo2 : Except String (LightsController × LScene) :=
  LightsController.remove_current_light demo1.1 demo1.2

/-- A throwaway light, used only as the `Option.getD` default below. -/
def dummyLight : OwnedLight :=
  (OwnedLight.mk' idKit .point "x" (0, 0, 0) emptyScene).1

/-- The current light of `demo1` (the point light `pl_1`, selected, with the
selected marker radius). -/
def demoCur : OwnedLight :=
  demo1.1.current.getD dummyLight

/-! ## Panel toggling (`src/main.py`)

`SMPLPlayground._build_gui` creates the Lights and SMPL panels and the two
menu buttons; `_show_lights_menu` / `_show_smpl_menu` are the buttons' click
handlers (each receives its own button as `e`, per `components.Button`, which
wires `set_on_clicked(lambda: on_click(self))`). -/

/-- The visibility/enabled state of the two panels and their menu buttons. -/
structure PanelsState where
  lightsPanelVisible : Bool
  smplPanelVisible : Bool
  lightsButtonEnabled : Bool
  smplButtonEnabled : Bool
  deriving DecidableEq

namespace PanelsState

/-- The state after `_build_gui` (and `_build_lights_menu`): the Lights panel
is shown with its button disabled, the SMPL panel is hidden with its button
enabled. -/
def init : PanelsState :=
  { lightsPanelVisible := true
    smplPanelVisible := false
    lightsButtonEnabled := false
    smplButtonEnabled := true }

/-- `SMPLPlayground._show_lights_menu(e)` with `e` the Lights button:
disable it, enable the SMPL button, show the Lights panel, hide the SMPL
panel. -/
def show_lights_menu (_st : PanelsState) : PanelsState :=
  { lightsPanelVisible := true
    smplPanelVisible := false
    lightsButtonEnabled := false
    smplButtonEnabled := true }

/-- `SMPLPlayground._show_smpl_menu(e)` with `e` the SMPL button: disable
it, enable the Lights button, hide the Lights panel, show the SMPL panel. -/
def show_smpl_menu (_st : PanelsState) : PanelsState :=
  { lightsPanelVisible := false
    smplPanelVisible := true
    lightsButtonEnabled := true
    smplButtonEnabled := false }

/-- The states reachable from the initial GUI state by menu-button clicks. -/
inductive Reachable : PanelsState → Prop where
  | init : Reachable init
  | lights {st : PanelsState} : Reachable st → Reachable st.show_lights_menu
  | smpl {st : PanelsState} : Reachable st → Reachable st.show_smpl_menu

end PanelsState

/-! ## The SMPL `Model` (`src/components/scene/model.py`)

The heavy linear-blend-skinning computation is the external `smplx.SMPL`
forward call; it is modelled as an explicit function argument
`forward betas body_pose global_orient` returning the vertex list.  The
open3d mesh built from it keeps exactly the data the program sets on it:
vertices, triangle faces and the uniform paint color. -/

/-- A triangle mesh as `Model._update` builds it. -/
structure Mesh where
  vertices : List V3
  triangles : List (ℕ × ℕ × ℕ)
  color : V3
  deriving DecidableEq

/-- The scene as the model uses it: named mesh geometries with the same
`has_geometry` / `remove_geometry` / `add_geometry` operations as above. -/
structure MScene where
  geoms : List (String × Mesh)
  deriving DecidableEq

namespace MScene

/-- `Scene.has_geometry(name)`. -/
def has_geometry (sc : MScene) (n : String) : Bool :=
  (sc.geoms.lookup n).isSome

/-- `Scene.remove_geometry(name)`. -/
def remove_geometry (sc : MScene) (n : String) : MScene :=
  ⟨dictRemove n sc.geoms⟩

/-- `Scene.add_geometry(name, mesh, material)`. -/
def add_geometry (sc : MScene) (n : String) (g : Mesh) : MScene :=
  if sc.has_geometry n then sc else ⟨sc.geoms ++ [(n, g)]⟩

end MScene

/-- The type of the external SMPL forward pass:
`forward betas body_pose global_orient` returns the deformed vertices. -/
abbrev SMPLForward : Type := List ℚ → List ℚ → List ℚ → List V3

/-- The state of the `Model` object (`src/components/scene/model.py`): the
1×72 pose tensor and 1×10 betas tensor are stored as flat lists. -/
structure Model where
  pose : List ℚ
  betas : List ℚ
  color : V3
  faces : List (ℕ × ℕ × ℕ)
  scene : MScene
  deriving DecidableEq

namespace Model

/-- `Model.DEFAULT_SMPL_COLOR`. -/
def DEFAULT_SMPL_COLOR : V3 := (0.85, 0.82, 0.80)

/-- `Model.MIN_POSE_VALUE`. -/
def MIN_POSE_VALUE : ℚ := -3.14

/-- `Model.MAX_POSE_VALUE`. -/
def MAX_POSE_VALUE : ℚ := 3.14

/-- `Model.MIN_BETAS_VALUE`. -/
def MIN_BETAS_VALUE : ℚ := -5.0

/-- `Model.MAX_BETAS_VALUE`. -/
def MAX_BETAS_VALUE : ℚ := 5.0

/-- `Model.DEFAULT_SMPL_POSE`: the 72 default pose values. -/
def DEFAULT_SMPL_POSE : List ℚ :=
  [0, 0, 0,
   0, 0, 0,
   0, 0, 0,
   0, 0, 0,
   0, 0, 0,
   0, 0, 0,
   0, 0, 0,
   0, 0.3, 0,
   0, -0.3, 0,
   0, 0, 0,
   0, 0, 0,
   0, 0, 0,
   0, 0, 0,
   -0.2, 0, -0.2,
   -0.2, 0, 0.2,
   0, 0, 0,
   0, -0.1, -0.8,
   0, 0.1, 0.8,
   0.4, -0.3, 0,
   0.4, 0.3, 0,
   -0.4, 0, 0,
   -0.4, 0, 0,
   0, 0, -0.3,
   0, 0, 0.3]

/-- `Model._GUI_MODEL_PARAMS_GROUPS`: the 24 pose slider group titles. -/
def GUI_MODEL_PARAMS_GROUPS : List String :=
  ["Global orientation",
   "Left leg",
   "Right leg",
   "Waist (Spine)",
   "Knee left",
   "Knee right",
   "Belly (Spine 1)",
   "Ankle left",
   "Ankle right",
   "Chest (Spine 2)",
   "Feet left toes",
   "Feet right toes",
   "Neck",
   "Shoulder left",
   "Shoulder right",
   "Head",
   "Arm left",
   "Arm right",
   "Forearm left",
   "Forearm right",
   "Wrist left",
   "Wrist right",
   "Fingers left",
   "Fingers right"]

/-- `Model._update`: run the forward pass with `betas`, `body_pose` the pose
entries from index 3 on, and `global_orient` the first 3 pose entries; build
the mesh from the resulting vertices, the model faces and the current color;
then replace the scene geometry named `smpl`. -/
def update (forward : SMPLForward) (st : Model) : Model :=
  let vertices := forward st.betas (st.pose.drop 3) (st.pose.take 3)
  let mesh : Mesh := ⟨vertices, st.faces, st.color⟩
  let sc1 :=
    if st.scene.has_geometry "smpl" then st.scene.remove_geometry "smpl"
    else st.scene
  { st with scene := sc1.add_geometry "smpl" mesh }

/-- `Model._on_pose_param_changed(value, index)`: write the slider value into
pose entry `index` and run `_update`. -/
def on_pose_param_changed (forward : SMPLForward) (value : ℚ) (index : ℕ)
    (st : Model) : Model :=
  update forward { st with pose := st.pose.set index value }

/-- `Model._on_betas_param_changed(value, index)`. -/
def on_betas_param_changed (forward : SMPLForward) (value : ℚ) (index : ℕ)
    (st : Model) : Model :=
  update forward { st with betas := st.betas.set index value }

/-- The pose/betas entry a slider is bound to (via the default-argument
closure `lambda v, p_i=param_index: ...`). -/
inductive SliderTarget where
  | poseParam (i : ℕ)
  | betasParam (i : ℕ)
  deriving DecidableEq

/-- A `gui.Slider` as `build_gui` creates it: its bound parameter, the
`set_limits` bounds, and the initial `double_value`. -/
structure SliderSpec where
  target : SliderTarget
  lo : ℚ
  hi : ℚ
  initial : ℚ
  deriving DecidableEq

/-- A widget added to a controls group by `build_gui` (labels and sliders;
containers are flattened). -/
inductive GuiItem where
  | label (text : String)
  | slider (sp : SliderSpec)
  deriving DecidableEq

/-- The slider of a widget, if it is one. -/
def GuiItem.slider? : GuiItem → Option SliderSpec
  | .slider sp => some sp
  | _ => none

/-- The pose-parameters controls group of `Model.build_gui`: for each group
`i` of the 24 titles, a label and then 3 sliders bound to pose entries
`i*3 + j`, each with limits `MIN_POSE_VALUE`–`MAX_POSE_VALUE` and the current
pose entry as initial value. -/
def pose_gui_items (st : Model) : List GuiItem :=
  GUI_MODEL_PARAMS_GROUPS.enum.bind fun p =>
    GuiItem.label p.2 ::
      (List.range 3).map fun j =>
        GuiItem.slider
          ⟨SliderTarget.poseParam (p.1 * 3 + j), MIN_POSE_VALUE,
            MAX_POSE_VALUE, st.pose.getD (p.1 * 3 + j) 0⟩

/-- The betas controls group of `Model.build_gui`: for `i` in `range(10)`, a
label `Beta i` and one slider bound to betas entry `i` with limits
`MIN_BETAS_VALUE`–`MAX_BETAS_VALUE`. -/
def betas_gui_items (st : Model) : List GuiItem :=
  (List.range 10).bind fun i =>
    [GuiItem.label ("Beta " ++ toString i),
     GuiItem.slider
       ⟨SliderTarget.betasParam i, MIN_BETAS_VALUE, MAX_BETAS_VALUE,
         st.betas.getD i 0⟩]

/-- The pose sliders of `build_gui`, in creation order. -/
def pose_sliders (st : Model) : List SliderSpec :=
  (pose_gui_items st).filterMap GuiItem.slider?

/-- The betas sliders of `build_gui`, in creation order. -/
def betas_sliders (st : Model) : List SliderSpec :=
  (betas_gui_items st).filterMap GuiItem.slider?

/-- The model state after `__init__` / `_reload(full_reload=True)`: default
pose, zero betas, default color (faces and scene are whatever the external
model and renderer hold). -/
def initial (faces : List (ℕ × ℕ × ℕ)) (sc : MScene) : Model :=
  { pose := DEFAULT_SMPL_POSE
    betas := List.replicate 10 0
    color := DEFAULT_SMPL_COLOR
    faces := faces
    scene := sc }

end Model

/-! ## Theorems -/

/-- **C4.** The two spherical-to-Cartesian conversions agree: for every
implementation of `radians`/`sin`/`cos` and every pair of angles in degrees,
`sphere_dir` and `yaw_pitch_to_direction` return the same direction vector,
namely `(cos(el)*sin(az), sin(el), cos(el)*cos(az))` after degree-to-radian
conversion. -/
theorem sphere_dir_eq_yaw_pitch_to_direction (k : TrigKit) (az el : ℚ) :
    sphere_dir k az el = yaw_pitch_to_direction k az el ∧
    sphere_dir k az el =
      (k.cos (k.radians el) * k.sin (k.radians az),
       k.sin (k.radians el),
       k.cos (k.radians el) * k.cos (k.radians az)) :=
  ⟨rfl, rfl⟩

/-- **C5.** `Sun.destroy` always raises (returning only an error, so neither
the Sun's fields nor the scene are modified), while `set_enabled False` only
flips the enabled flag and disables the sun light in the scene: all other Sun
settings (azimuth, elevation, color, intensity) are kept, the scene's sun
parameters are re-set from those unchanged settings, and the scene's
geometries and lights are untouched. -/
theorem sun_destroy_raises_and_set_enabled_disables
    (k : TrigKit) (s : Sun) (sc : LScene) :
    Sun.destroy s sc =
      .error "Sun light cannot be destroyed. Try disabling it instead." ∧
    (Sun.set_enabled k s false sc).1 =
      { s with enabled := false } ∧
    (Sun.set_enabled k s false sc).2.sunEnabled = false ∧
    (Sun.set_enabled k s false sc).2.sun =
      some ⟨sphere_dir k s.azimuth_deg s.elevation_deg, s.color,
        s.intensity⟩ ∧
    (Sun.set_enabled k s false sc).2.geoms = sc.geoms ∧
    (Sun.set_enabled k s false sc).2.lights = sc.lights :=
  ⟨rfl, rfl, rfl, rfl, rfl, rfl⟩

/-- **C6.** The setters re-establish the light/marker mirror: immediately
after `set_color` on a point/spot light or on the sun, the marker's color
equals the light's color, and immediately after `set_position` on a
point/spot light, the marker's position equals the light's position. -/
theorem light_marker_mirror (k : TrigKit) (l : OwnedLight) (s : Sun)
    (c p : V3) (sc : LScene) :
    (OwnedLight.set_color k l c sc).1.marker.color =
      (OwnedLight.set_color k l c sc).1.light.color ∧
    (Sun.set_color k s c sc).1.marker.color =
      (Sun.set_color k s c sc).1.color ∧
    (OwnedLight.set_position k l p sc).1.marker.position =
      (OwnedLight.set_position k l p sc).1.light.position :=
  ⟨rfl, rfl, rfl⟩

/-- **C7.** In the initial GUI state and after every menu-button toggle, at
most one of the Lights/SMPL panels is visible, and the visible panel's button
is disabled while the other button is enabled. -/
theorem panels_mutually_exclusive (st : PanelsState)
    (h : PanelsState.Reachable st) :
    ¬(st.lightsPanelVisible = true ∧ st.smplPanelVisible = true) ∧
    (st.lightsPanelVisible = true →
      st.lightsButtonEnabled = false ∧ st.smplButtonEnabled = true) ∧
    (st.smplPanelVisible = true →
      st.smplButtonEnabled = false ∧ st.lightsButtonEnabled = true) := by
  induction h with
  | init => simp [PanelsState.init]
  | lights _ _ => simp [PanelsState.show_lights_menu]
  | smpl _ _ => simp [PanelsState.show_smpl_menu]

/-- Witness for C7: the initial state is reachable and satisfies the
invariant. -/
theorem panels_mutually_exclusive_witness :
    PanelsState.Reachable PanelsState.init ∧
    (¬(PanelsState.init.lightsPanelVisible = true ∧
        PanelsState.init.smplPanelVisible = true) ∧
     (PanelsState.init.lightsPanelVisible = true →
       PanelsState.init.lightsButtonEnabled = false ∧
       PanelsState.init.smplButtonEnabled = true) ∧
     (PanelsState.init.smplPanelVisible = true →
       PanelsState.init.smplButtonEnabled = false ∧
       PanelsState.init.lightsButtonEnabled = true)) :=
  ⟨PanelsState.Reachable.init,
   panels_mutually_exclusive PanelsState.init PanelsState.Reachable.init⟩

/-- No entry keyed `n` survives `dictRemove n`. -/
theorem lookup_dictRemove_self {α : Type} (n : String)
    (l : List (String × α)) : (dictRemove n l).lookup n = none := by
  induction l with
  | nil => rfl
  | cons a t ih =>
    by_cases h : a.1 = n
    · simp only [dictRemove, List.filter_cons]
      have hb : (a.1 != n) = false := by simp [h]
      rw [hb]
      simpa [dictRemove] using ih
    · simp only [dictRemove, List.filter_cons]
      have hb : (a.1 != n) = true := by simp [h]
      rw [hb]
      simp only [if_true]
      rw [List.lookup]
      rw [show (n == a.1) = false by simp [Ne.symm h]]
      simpa [dictRemove] using ih

/-- A list without key `n` has no entry passing the key-`n` filter. -/
theorem filter_eq_nil_of_lookup_none {α : Type} (n : String)
    (l : List (String × α)) (h : l.lookup n = none) :
    l.filter (fun p => p.1 == n) = [] := by
  induction l with
  | nil => rfl
  | cons a t ih =>
    rw [List.lookup] at h
    by_cases ha : a.1 = n
    · rw [show (n == a.1) = true by simp [ha.symm]] at h
      simp at h
    · rw [show (n == a.1) = false by simp [Ne.symm ha]] at h
      simp only [List.filter_cons]
      rw [show (a.1 == n) = false by simp [ha]]
      simpa using ih h

/-- After removing every `n`-keyed entry and appending a single `(n, g)`,
filtering for key `n` yields exactly `[(n, g)]`. -/
theorem filter_key_replace {α : Type} (n : String) (l : List (String × α))
    (g : α) :
    ((dictRemove n l) ++ [(n, g)]).filter (fun p => p.1 == n) = [(n, g)] := by
  have h0 : (dictRemove n l).filter (fun p => p.1 == n) = [] :=
    filter_eq_nil_of_lookup_none n _ (lookup_dictRemove_self n l)
  simp [List.filter_append, h0]

/-- **C3.** On every pose or betas parameter change, the model runs the
forward pass with the first 3 entries of the 72-value pose vector as
`global_orient` and the remaining 69 entries as `body_pose`, and the
resulting mesh replaces the scene geometry named `smpl`: afterwards the scene
holds exactly one geometry keyed `smpl`, namely the mesh built from the
forward pass of the updated parameters. -/
theorem model_update_splits_pose_and_replaces_smpl
    (forward : SMPLForward) (st : Model) (v : ℚ) (i j : ℕ)
    (hlen : st.pose.length = 72) :
    (Model.on_pose_param_changed forward v i st).scene.geoms.filter
        (fun p => p.1 == "smpl") =
      [("smpl",
        ⟨forward st.betas ((st.pose.set i v).drop 3)
          ((st.pose.set i v).take 3), st.faces, st.color⟩)] ∧
    ((st.pose.set i v).take 3).length = 3 ∧
    ((st.pose.set i v).drop 3).length = 69 ∧
    (Model.on_betas_param_changed forward v j st).scene.geoms.filter
        (fun p => p.1 == "smpl") =
      [("smpl",
        ⟨forward (st.betas.set j v) (st.pose.drop 3) (st.pose.take 3),
          st.faces, st.color⟩)] := by
  have hgeoms : ∀ (sc : MScene) (g : Mesh),
      ((if sc.has_geometry "smpl" then sc.remove_geometry "smpl"
        else sc).add_geometry "smpl" g).geoms.filter
        (fun p => p.1 == "smpl") = [("smpl", g)] := by
    intro sc g
    by_cases h : sc.has_geometry "smpl"
    · have hl : ((sc.remove_geometry "smpl").geoms.lookup "smpl") = none :=
        lookup_dictRemove_self "smpl" sc.geoms
      have hh : (sc.remove_geometry "smpl").has_geometry "smpl" = false := by
        simp [MScene.has_geometry, hl]
      simp only [h, if_true, MScene.add_geometry, hh, Bool.false_eq_true,
        if_false]
      exact filter_key_replace "smpl" sc.geoms g
    · have hl : sc.geoms.lookup "smpl" = none := by
        by_contra hne
        exact h (by
          simp only [MScene.has_geometry]
          exact Option.isSome_iff_ne_none.mpr hne)
      rw [if_neg h]
      simp only [MScene.add_geometry, MScene.has_geometry, hl,
        Option.isSome_none, Bool.false_eq_true, if_false]
      rw [List.filter_append, filter_eq_nil_of_lookup_none "smpl" _ hl]
      simp
  refine ⟨?_, ?_, ?_, ?_⟩
  · exact hgeoms _ _
  · simp [List.length_take, List.length_set, hlen]
  · simp [List.length_drop, List.length_set, hlen]
  · exact hgeoms _ _

/-- Witness for C3: the initial model (default pose, length 72) with a
trivial forward pass; changing pose entry 0 to 1 leaves exactly the one
`smpl` geometry. -/
theorem model_update_splits_pose_and_replaces_smpl_witness :
    (Model.initial [] ⟨[]⟩).pose.length = 72 ∧
    (Model.on_pose_param_changed (fun _ _ _ => []) 1 0
        (Model.initial [] ⟨[]⟩)).scene.geoms.filter
        (fun p => p.1 == "smpl") =
      [("smpl", ⟨[], [], Model.DEFAULT_SMPL_COLOR⟩)] :=
  ⟨by decide,
   (model_update_splits_pose_and_replaces_smpl (fun _ _ _ => [])
     (Model.initial [] ⟨[]⟩) 1 0 0 (by decide)).1⟩

/-- **C8.** `build_gui` creates the pose sliders bound, in order, to pose
entries 0–71, each with limits `MIN_POSE_VALUE = -3.14` and
`MAX_POSE_VALUE = 3.14`, and the betas sliders bound to betas entries 0–9
with limits `MIN_BETAS_VALUE = -5.0` and `MAX_BETAS_VALUE = 5.0`; a slider
change writes its (bounds-clamped) value into exactly its own tensor entry,
leaving every other pose entry and the whole betas tensor (resp. pose
tensor) unchanged. -/
theorem sliders_cover_and_write_one_entry (forward : SMPLForward)
    (st : Model) :
    (Model.pose_sliders st).map (fun s => (s.target, s.lo, s.hi)) =
      (List.range 72).map
        (fun i => (Model.SliderTarget.poseParam i, Model.MIN_POSE_VALUE,
          Model.MAX_POSE_VALUE)) ∧
    (Model.betas_sliders st).map (fun s => (s.target, s.lo, s.hi)) =
      (List.range 10).map
        (fun i => (Model.SliderTarget.betasParam i, Model.MIN_BETAS_VALUE,
          Model.MAX_BETAS_VALUE)) ∧
    (∀ v i, i < 72 → st.pose.length = 72 →
      Model.MIN_POSE_VALUE ≤ v → v ≤ Model.MAX_POSE_VALUE →
      (Model.on_pose_param_changed forward v i st).pose[i]? = some v ∧
      Model.MIN_POSE_VALUE ≤ v ∧ v ≤ Model.MAX_POSE_VALUE ∧
      (∀ j, j ≠ i →
        (Model.on_pose_param_changed forward v i st).pose[j]? =
          st.pose[j]?) ∧
      (Model.on_pose_param_changed forward v i st).betas = st.betas) ∧
    (∀ v i, i < 10 → st.betas.length = 10 →
      Model.MIN_BETAS_VALUE ≤ v → v ≤ Model.MAX_BETAS_VALUE →
      (Model.on_betas_param_changed forward v i st).betas[i]? = some v ∧
      (∀ j, j ≠ i →
        (Model.on_betas_param_changed forward v i st).betas[j]? =
          st.betas[j]?) ∧
      (Model.on_betas_param_changed forward v i st).pose = st.pose) := by
  refine ⟨rfl, rfl, ?_, ?_⟩
  · intro v i hi hlen hlo hhi
    have hpose : (Model.on_pose_param_changed forward v i st).pose =
        st.pose.set i v := rfl
    refine ⟨?_, hlo, hhi, ?_, rfl⟩
    · rw [hpose]
      exact List.getElem?_set_self (by rw [hlen]; exact hi)
    · intro j hj
      rw [hpose]
      exact List.getElem?_set_ne (Ne.symm hj)
  · intro v i hi hlen hlo hhi
    have hbetas : (Model.on_betas_param_changed forward v i st).betas =
        st.betas.set i v := rfl
    refine ⟨?_, ?_, rfl⟩
    · rw [hbetas]
      exact List.getElem?_set_self (by rw [hlen]; exact hi)
    · intro j hj
      rw [hbetas]
      exact List.getElem?_set_ne (Ne.symm hj)

/-- The slider bounds admit the value `1` (used by the witnesses below). -/
theorem min_pose_le_one : Model.MIN_POSE_VALUE ≤ (1 : ℚ) ∧
    (1 : ℚ) ≤ Model.MAX_POSE_VALUE := by
  constructor <;> norm_num [Model.MIN_POSE_VALUE, Model.MAX_POSE_VALUE]

/-- Witness for C8: on the initial model, writing `1` through pose slider 0
lands in pose entry 0 and leaves pose entry 1 at its default. -/
theorem sliders_cover_and_write_one_entry_witness :
    (0 : ℕ) < 72 ∧ (Model.initial [] ⟨[]⟩).pose.length = 72 ∧
    Model.MIN_POSE_VALUE ≤ (1 : ℚ) ∧ (1 : ℚ) ≤ Model.MAX_POSE_VALUE ∧
    (Model.on_pose_param_changed (fun _ _ _ => []) 1 0
      (Model.initial [] ⟨[]⟩)).pose[0]? = some 1 :=
  ⟨by decide, by decide, min_pose_le_one.1, min_pose_le_one.2,
   ((sliders_cover_and_write_one_entry (fun _ _ _ => [])
       (Model.initial [] ⟨[]⟩)).2.2.1 1 0 (by decide) (by decide)
       min_pose_le_one.1 min_pose_le_one.2).1⟩

/-- **C9.** `on_key_event_handler` acts only on key-down events with a
recognized key: a non-down event, an event without a `key` attribute, or an
unrecognized key returns `False` with the controller and scene unchanged;
and `_remove_current_light` / `_move_current_light` with no selected light
leave the mapping, the scene and the selection unchanged. -/
theorem on_key_event_handler_ignores_unrecognized (k : TrigKit)
    (fresh : String) (defaultPos : V3) (ev : KeyEvent)
    (st : LightsController) (sc : LScene) :
    (ev.type ≠ KeyEventType.down →
      LightsController.on_key_event_handler k fresh defaultPos ev st sc =
        .ok (false, st, sc)) ∧
    (ev.key = none →
      LightsController.on_key_event_handler k fresh defaultPos ev st sc =
        .ok (false, st, sc)) ∧
    (∀ key, ev.key = some key →
      key ∉ LightsController.light_move_keys →
      key ∉ ([97, 65, 115, 83, 100, 68, 122, 90, 120, 88] : List ℕ) →
      LightsController.on_key_event_handler k fresh defaultPos ev st sc =
        .ok (false, st, sc)) ∧
    (st.current = none →
      LightsController.remove_current_light st sc = .ok (st, sc) ∧
      ∀ key, LightsController.move_current_light k key st sc = (st, sc)) := by
  refine ⟨?_, ?_, ?_, ?_⟩
  · intro h
    simp [LightsController.on_key_event_handler, h]
  · intro h
    by_cases ht : ev.type = KeyEventType.down
    · simp [LightsController.on_key_event_handler, ht, h]
    · simp [LightsController.on_key_event_handler, ht]
  · intro key hk h1 h2
    by_cases ht : ev.type = KeyEventType.down
    · simp only [LightsController.light_move_keys, List.mem_cons,
        List.not_mem_nil, or_false, not_or] at h1 h2
      simp [LightsController.on_key_event_handler, ht, hk,
        LightsController.light_move_keys, h1.1, h1.2.1, h1.2.2.1,
        h1.2.2.2.1, h1.2.2.2.2.1, h1.2.2.2.2.2, h2.1, h2.2.1, h2.2.2.1,
        h2.2.2.2.1, h2.2.2.2.2.1, h2.2.2.2.2.2.1, h2.2.2.2.2.2.2.1,
        h2.2.2.2.2.2.2.2.1, h2.2.2.2.2.2.2.2.2.1, h2.2.2.2.2.2.2.2.2.2]
    · simp [LightsController.on_key_event_handler, ht]
  · intro h
    constructor
    · simp [LightsController.remove_current_light, h]
    · intro key
      simp [LightsController.move_current_light, h]

/-- Witness for C9: a key-up event, a down event without key, the
unrecognized key `q`, and the freshly initialized controller (no selection)
are all ignored. -/
theorem on_key_event_handler_ignores_unrecognized_witness :
    LightsController.on_key_event_handler idKit "pl_1" (1, 1, 1)
        ⟨KeyEventType.up, some 97⟩ demo0.1 demo0.2 =
      .ok (false, demo0.1, demo0.2) ∧
    LightsController.on_key_event_handler idKit "pl_1" (1, 1, 1)
        ⟨KeyEventType.down, none⟩ demo0.1 demo0.2 =
      .ok (false, demo0.1, demo0.2) ∧
    LightsController.on_key_event_handler idKit "pl_1" (1, 1, 1)
        ⟨KeyEventType.down, some 113⟩ demo0.1 demo0.2 =
      .ok (false, demo0.1, demo0.2) ∧
    LightsController.remove_current_light demo0.1 demo0.2 =
      .ok (demo0.1, demo0.2) ∧
    LightsController.move_current_light idKit 265 demo0.1 demo0.2 =
      (demo0.1, demo0.2) :=
  ⟨(on_key_event_handler_ignores_unrecognized idKit "pl_1" (1, 1, 1)
      ⟨KeyEventType.up, some 97⟩ demo0.1 demo0.2).1 (by decide),
   (on_key_event_handler_ignores_unrecognized idKit "pl_1" (1, 1, 1)
      ⟨KeyEventType.down, none⟩ demo0.1 demo0.2).2.1 rfl,
   (on_key_event_handler_ignores_unrecognized idKit "pl_1" (1, 1, 1)
      ⟨KeyEventType.down, some 113⟩ demo0.1 demo0.2).2.2.1 113 rfl
      (by decide) (by decide),
   ((on_key_event_handler_ignores_unrecognized idKit "pl_1" (1, 1, 1)
      ⟨KeyEventType.down, some 113⟩ demo0.1 demo0.2).2.2.2 rfl).1,
   ((on_key_event_handler_ignores_unrecognized idKit "pl_1" (1, 1, 1)
      ⟨KeyEventType.down, some 113⟩ demo0.1 demo0.2).2.2.2 rfl).2 265⟩

/-- **C10.** Moving the selected light with one of the six movement keys
changes exactly one coordinate of its position by exactly
`LIGHT_MOVE_STEP = 0.01` — up (265), right (264) and page-up (271) add the
step to y, x and z respectively; down (266), left (263) and page-down (270)
subtract it — and leaves the other two coordinates and the light's color,
intensity, name, falloff and shadow flag unchanged. -/
theorem move_current_light_moves_one_coordinate (k : TrigKit)
    (st : LightsController) (sc : LScene) (cur : OwnedLight)
    (hcur : st.current = some cur) :
    ((LightsController.move_current_light k 265 st sc).1.current.map
        (fun l => l.light.position) =
      some (cur.light.position.1,
        cur.light.position.2.1 + LightsController.LIGHT_MOVE_STEP,
        cur.light.position.2.2)) ∧
    ((LightsController.move_current_light k 266 st sc).1.current.map
        (fun l => l.light.position) =
      some (cur.light.position.1,
        cur.light.position.2.1 - LightsController.LIGHT_MOVE_STEP,
        cur.light.position.2.2)) ∧
    ((LightsController.move_current_light k 264 st sc).1.current.map
        (fun l => l.light.position) =
      some (cur.light.position.1 + LightsController.LIGHT_MOVE_STEP,
        cur.light.position.2.1, cur.light.position.2.2)) ∧
    ((LightsController.move_current_light k 263 st sc).1.current.map
        (fun l => l.light.position) =
      some (cur.light.position.1 - LightsController.LIGHT_MOVE_STEP,
        cur.light.position.2.1, cur.light.position.2.2)) ∧
    ((LightsController.move_current_light k 271 st sc).1.current.map
        (fun l => l.light.position) =
      some (cur.light.position.1, cur.light.position.2.1,
        cur.light.position.2.2 + LightsController.LIGHT_MOVE_STEP)) ∧
    ((LightsController.move_current_light k 270 st sc).1.current.map
        (fun l => l.light.position) =
      some (cur.light.position.1, cur.light.position.2.1,
        cur.light.position.2.2 - LightsController.LIGHT_MOVE_STEP)) ∧
    (∀ key,
      (LightsController.move_current_light k key st sc).1.current.map
          (fun l => l.light.color) = some cur.light.color ∧
      (LightsController.move_current_light k key st sc).1.current.map
          (fun l => l.light.intensity) = some cur.light.intensity ∧
      (LightsController.move_current_light k key st sc).1.current.map
          (fun l => l.light.name) = some cur.light.name ∧
      (LightsController.move_current_light k key st sc).1.current.map
          (fun l => l.light.falloff) = some cur.light.falloff ∧
      (LightsController.move_current_light k key st sc).1.current.map
          (fun l => l.light.cast_shadow) = some cur.light.cast_shadow) := by
  refine ⟨?_, ?_, ?_, ?_, ?_, ?_, ?_⟩ <;>
    simp [LightsController.move_current_light, hcur,
      OwnedLight.set_position, LightMarker.set_position,
      PLight.positionAttr]

/-- Witness for C10: in the one-light run `demo1` the current light exists,
and the up key raises its y coordinate by the step. -/
theorem move_current_light_moves_one_coordinate_witness :
    demo1.1.current = some demoCur ∧
    (LightsController.move_current_light idKit 265 demo1.1 demo1.2).1.current.map
        (fun l => l.light.position) =
      some (demoCur.light.position.1,
        demoCur.light.position.2.1 + LightsController.LIGHT_MOVE_STEP,
        demoCur.light.position.2.2) :=
  ⟨rfl,
   (move_current_light_moves_one_coordinate idKit demo1.1 demo1.2 demoCur
     rfl).1⟩

/-- **C1** (failing case). Starting from the freshly initialized controller,
adding one point light and then removing the current light leaves the
mapping empty while `_current_light` still holds the removed light `pl_1` —
the selected light is neither none nor a member of the mapping — and a
second `_remove_current_light` hits a `KeyError` on `del`. -/
theorem remove_last_light_keeps_stale_selection :
    (demo2.map fun q => q.1.lights) = .ok [] ∧
    (demo2.map fun q => q.1.current.map fun l => l.light.name) =
      .ok (some "pl_1") ∧
    (demo2.bind fun q => LightsController.remove_current_light q.1 q.2) =
      .error "KeyError: pl_1" := by
  refine ⟨rfl, rfl, rfl⟩

/-- **C2** (failing case). In the same run, removal does delete `pl_1` from
the mapping, but the scene still holds both the scene light `pl_1` and the
marker geometry `m_pl_1`: `PointLight.destroy` only tears down the GUI
(`Light.destroy` is an abstract `pass`, and `LightMarker.destroy` is never
called), so the light is not destroyed in the scene. -/
theorem remove_light_leaves_scene_light_and_marker :
    (demo2.map fun q => q.1.lights.lookup "pl_1") = .ok none ∧
    (demo2.map fun q => q.2.has_light "pl_1") = .ok true ∧
    (demo2.map fun q => q.2.has_geometry "m_pl_1") = .ok true := by
  refine ⟨rfl, rfl, rfl⟩
